import Mathlib

/-!
Verification of the CreatorOS backend multi-platform publish orchestrator.

This file gives a shallow embedding of the publish pipeline of
`src/controllers/postController.js` (direct `publishPost` handler and the
`autoPublishScheduledPosts` cron sweep), the per-platform token managers
(`ensureValidToken` in `src/controllers/snapchatController.js` and
`src/controllers/mediaLibraryController.js`), the Instagram publish workflow
(`src/services/instagramService.js`), the post update handler, and the
analytics sync helper.

Conventions of the embedding:
* Timestamps are `Nat` milliseconds since the epoch; `now` is passed in.
* Every third-party network call is abstracted as an `Except String _`
  outcome supplied by the environment: `.error msg` models the call (or any
  step of the platform attempt, token refresh included) throwing with that
  message, `.ok v` models the resolved response value.
* JavaScript truthiness on optional strings (`undefined`/`null`/`""` are
  falsy) is modelled by `jsTruthy` and `jsStrOr`.
* Handlers are modelled as pure functions from the loaded documents and the
  environment to an outcome record carrying the saved document states, the
  HTTP response fields, and the list of platform attempt blocks that were
  entered (used to express that an attempt, token step included, did or did
  not happen).
-/

/-- JavaScript truthiness of an optional string: `undefined`, `null` and the
empty string are falsy. -/
def jsTruthy : Option String → Bool
  | none => false
  | some s => s ≠ ""

/-- `a || b` for an optional string `a` and a string fallback `b`, with
JavaScript truthiness. -/
def jsStrOr (a : Option String) (b : String) : String :=
  match a with
  | none => b
  | some s => if s = "" then b else s

/-- The `error` subdocument of a Post (`message`, `code`, `timestamp`),
from `src/models/Post.js`. -/
structure ErrDoc where
  message : String
  code : String
  timestamp : Nat
  deriving Repr, DecidableEq

/-- The Instagram analytics block of a Post, from `src/models/Post.js`. -/
structure IgAnalytics where
  likes : Nat
  comments : Nat
  saves : Nat
  reach : Nat
  impressions : Nat
  engagement : Nat
  deriving Repr, DecidableEq

/-- A Post document, the fields of `src/models/Post.js` that the publish,
update and analytics-sync handlers read or write. -/
structure PostDoc where
  title : String
  content : String
  mediaUrl : Option String
  mediaType : String
  platform : Option String
  status : String
  scheduledFor : Option Nat
  publishedAt : Option Nat
  snapchatPostId : Option String
  instagramPostId : Option String
  youtubeVideoId : Option String
  analyticsInstagram : IgAnalytics
  analyticsLastSynced : Option Nat
  error : Option ErrDoc
  deriving Repr, DecidableEq

/-- The User document fields that the publish handlers read or write:
per-platform connection flags, plan name, and the monthly usage counter.
(The credential token fields are modelled separately, see `Credential`.) -/
structure UserDoc where
  snapchatConnected : Bool
  instagramConnected : Bool
  youtubeConnected : Bool
  plan : String
  postsThisMonth : Nat
  deriving Repr, DecidableEq

/-- Plan limits, from `userSchema.methods.getPlanLimits` in
`src/models/User.js`. `-1` is the unlimited sentinel. -/
structure PlanLimits where
  postsPerMonth : Int
  scheduledPosts : Int
  analytics : Bool
  deriving Repr, DecidableEq

/-- `getPlanLimits` from `src/models/User.js`: plan-name lookup with `free`
as the fallback. -/
def getPlanLimits (plan : String) : PlanLimits :=
  if plan = "free" then ⟨10, 5, false⟩
  else if plan = "pro" then ⟨100, 50, true⟩
  else if plan = "business" then ⟨-1, -1, true⟩
  else ⟨10, 5, false⟩

/-- The Snapchat publish response as consumed by the controller: the id may
sit at `response.data.id` or `response.id` (`snapResult?.data?.id` /
`snapResult?.id`), either possibly absent. -/
structure SnapResponse where
  dataId : Option String
  id : Option String
  deriving Repr, DecidableEq

/-- The value returned by `instagramService.uploadAndPublish` as consumed by
the controller; `postId` is optional to model a resolved result carrying no
post id. -/
structure InstaResult where
  postId : Option String
  containerId : String
  deriving Repr, DecidableEq

/-- The value returned by `youtubeService.uploadVideo`. -/
structure YtResult where
  videoId : String
  videoUrl : String
  deriving Repr, DecidableEq

/-- One platform's entry in the controller's `results` map (only success
entries are ever stored there in the direct path; the id slot holds the
post id / video id). -/
structure PlatformResult where
  success : Bool
  postId : String
  deriving Repr, DecidableEq

/-- One entry of `results.errors`: `{platform, error}`. -/
structure PlatformError where
  platform : String
  error : String
  deriving Repr, DecidableEq

/-- The environment of one direct publish invocation: the outcome of each
platform's whole try-block (token check/refresh + adapter call), had it run.
`.error m` models a throw with message `m` anywhere inside the block. -/
structure PublishEnv where
  snapOutcome : Except String SnapResponse
  instaOutcome : Except String InstaResult
  ytOutcome : Except String YtResult

/-- Everything observable about one `publishPost` invocation: the saved post
and user states, the HTTP response fields, the `results` map, and the
ordered list of platform try-blocks that were entered. -/
structure PubOutcome where
  post : PostDoc
  user : UserDoc
  httpStatus : Nat
  success : Bool
  message : String
  resultsSnapchat : Option PlatformResult
  resultsInstagram : Option PlatformResult
  resultsYoutube : Option PlatformResult
  errors : List PlatformError
  attempted : List String
  deriving Repr, DecidableEq

/-- Intermediate state threaded through the per-platform sections of
`publishPost`. -/
structure PubSt where
  post : PostDoc
  resSnap : Option PlatformResult
  resInsta : Option PlatformResult
  resYt : Option PlatformResult
  errors : List PlatformError
  attempted : List String
  deriving Repr, DecidableEq

/-- `snapResult?.data?.id || snapResult?.id || 'published'`
(postController.js line 380 and line 853). -/
def snapPostIdOf (r : SnapResponse) : String :=
  jsStrOr r.dataId (jsStrOr r.id "published")

/-- Direct-path platform fan-out for Snapchat (postController.js line 298). -/
def publishToSnapchat (platform : String) : Bool :=
  ["snapchat", "snapchat_instagram", "snapchat_youtube", "all"].contains platform

/-- Direct-path platform fan-out for Instagram (postController.js line 299). -/
def publishToInstagram (platform : String) : Bool :=
  ["instagram", "snapchat_instagram", "instagram_youtube", "all"].contains platform

/-- Direct-path platform fan-out for YouTube (postController.js line 300). -/
def publishToYouTube (platform : String) : Bool :=
  ["youtube", "snapchat_youtube", "instagram_youtube", "all"].contains platform

/-- `post.platform || 'snapchat'`. -/
def effectivePlatform (p : Option String) : String :=
  jsStrOr p "snapchat"

/-- The precondition ladder of `publishPost` (postController.js lines
279-354), in source order; returns the first rejection (HTTP status and
message) or `none` when all checks pass. -/
def checkPreconditions (post : PostDoc) (user : UserDoc) : Option (Nat × String) :=
  if post.status = "published" then
    some (400, "Post is already published")
  else
    let platform := effectivePlatform post.platform
    if publishToSnapchat platform && !user.snapchatConnected then
      some (400, "Please connect your Snapchat account first")
    else if publishToInstagram platform && !user.instagramConnected then
      some (400, "Please connect your Instagram account first")
    else if publishToYouTube platform && !user.youtubeConnected then
      some (400, "Please connect your YouTube account first")
    else if publishToYouTube platform && post.mediaType ≠ "video" then
      some (400, "YouTube only supports video content. Please upload a video.")
    else
      let limits := getPlanLimits user.plan
      if limits.postsPerMonth ≠ -1 && (user.postsThisMonth : Int) ≥ limits.postsPerMonth then
        some (403, "You have reached your monthly post limit (" ++
          toString limits.postsPerMonth ++ "). Please upgrade your plan.")
      else if !(jsTruthy post.mediaUrl) then
        some (400, "Media (image or video) is required for publishing")
      else
        none

/-- A precondition rejection: nothing saved, nothing attempted. -/
def mkReject (post : PostDoc) (user : UserDoc) (code : Nat) (msg : String) : PubOutcome :=
  { post := post, user := user, httpStatus := code, success := false, message := msg,
    resultsSnapchat := none, resultsInstagram := none, resultsYoutube := none,
    errors := [], attempted := [] }

/-- An early `return res.status(500)` taken inside a platform catch block:
the post is saved as `failed` with that platform's own error detail. -/
def mkEarlyFail (st : PubSt) (user : UserDoc) (respMsg errMsg errCode : String)
    (now : Nat) : PubOutcome :=
  { post := { st.post with
      status := "failed",
      error := some { message := errMsg, code := errCode, timestamp := now } },
    user := user, httpStatus := 500, success := false, message := respMsg,
    resultsSnapchat := st.resSnap, resultsInstagram := st.resInsta,
    resultsYoutube := st.resYt, errors := st.errors, attempted := st.attempted }

/-- The Snapchat section of `publishPost` (lines 364-406): on success store
the extracted id; on failure push the error and, when Instagram is not also
targeted, return the 500 failure immediately. -/
def snapStep (pubS pubI : Bool) (out : Except String SnapResponse) (now : Nat)
    (user : UserDoc) (st : PubSt) : Except PubOutcome PubSt :=
  if pubS then
    match out with
    | .ok r =>
      let pid := snapPostIdOf r
      .ok { st with post := { st.post with snapchatPostId := some pid },
                    resSnap := some { success := true, postId := pid },
                    attempted := st.attempted ++ ["snapchat"] }
    | .error msg =>
      let st1 := { st with errors := st.errors ++ [{ platform := "snapchat", error := msg }],
                           attempted := st.attempted ++ ["snapchat"] }
      if !pubI then
        .error (mkEarlyFail st1 user "Failed to publish to Snapchat" msg "SNAPCHAT_ERROR" now)
      else
        .ok st1
  else
    .ok st

/-- The Instagram section of `publishPost` (lines 409-466): a resolved
result with no truthy post id raises `No post ID returned from Instagram`
inside the same try, so it lands in the catch; when Snapchat is not also
targeted a failure returns the 500 immediately. -/
def instaStep (pubS pubI : Bool) (out : Except String InstaResult) (now : Nat)
    (user : UserDoc) (st : PubSt) : Except PubOutcome PubSt :=
  if pubI then
    let eff : Except String String :=
      match out with
      | .ok r =>
        if jsTruthy r.postId then .ok (jsStrOr r.postId "")
        else .error "No post ID returned from Instagram"
      | .error msg => .error msg
    match eff with
    | .ok pid =>
      .ok { st with post := { st.post with instagramPostId := some pid },
                    resInsta := some { success := true, postId := pid },
                    attempted := st.attempted ++ ["instagram"] }
    | .error msg =>
      let st1 := { st with errors := st.errors ++ [{ platform := "instagram", error := msg }],
                           attempted := st.attempted ++ ["instagram"] }
      if !pubS then
        .error (mkEarlyFail st1 user "Failed to publish to Instagram" msg "INSTAGRAM_ERROR" now)
      else
        .ok st1
  else
    .ok st

/-- The YouTube section of `publishPost` (lines 469-527); the inline token
refresh is part of the try-block outcome. When neither Snapchat nor
Instagram is also targeted a failure returns the 500 immediately. -/
def ytStep (pubS pubI pubY : Bool) (out : Except String YtResult) (now : Nat)
    (user : UserDoc) (st : PubSt) : Except PubOutcome PubSt :=
  if pubY then
    match out with
    | .ok r =>
      .ok { st with post := { st.post with youtubeVideoId := some r.videoId },
                    resYt := some { success := true, postId := r.videoId },
                    attempted := st.attempted ++ ["youtube"] }
    | .error msg =>
      let st1 := { st with errors := st.errors ++ [{ platform := "youtube", error := msg }],
                           attempted := st.attempted ++ ["youtube"] }
      if !pubS && !pubI then
        .error (mkEarlyFail st1 user "Failed to publish to YouTube" msg "YOUTUBE_ERROR" now)
      else
        .ok st1
  else
    .ok st

/-- The final status resolution of `publishPost` (lines 529-586): all
targets succeeded / at least one succeeded / all failed, followed by the
`res.json` response whose `success` field is `true` on every non-early
path. -/
def finalizePublish (pubS pubI pubY : Bool) (now : Nat) (user : UserDoc)
    (st : PubSt) : PubOutcome :=
  let snapchatSuccess := !pubS || (st.resSnap.map (fun r => r.success)).getD false
  let instagramSuccess := !pubI || (st.resInsta.map (fun r => r.success)).getD false
  let youtubeSuccess := !pubY || (st.resYt.map (fun r => r.success)).getD false
  let platforms := (if pubS then ["Snapchat"] else []) ++
    (if pubI then ["Instagram"] else []) ++ (if pubY then ["YouTube"] else [])
  let successMessage := "Post published successfully to " ++ String.intercalate " & " platforms
  let message := if st.errors.length > 0 then successMessage ++ " (with some errors)"
    else successMessage
  if snapchatSuccess && instagramSuccess && youtubeSuccess then
    { post := { st.post with status := "published", publishedAt := some now },
      user := { user with postsThisMonth := user.postsThisMonth + 1 },
      httpStatus := 200, success := true, message := message,
      resultsSnapchat := st.resSnap, resultsInstagram := st.resInsta,
      resultsYoutube := st.resYt, errors := st.errors, attempted := st.attempted }
  else if snapchatSuccess || instagramSuccess || youtubeSuccess then
    { post := { st.post with status := "published", publishedAt := some now },
      user := { user with postsThisMonth := user.postsThisMonth + 1 },
      httpStatus := 200, success := true, message := message,
      resultsSnapchat := st.resSnap, resultsInstagram := st.resInsta,
      resultsYoutube := st.resYt, errors := st.errors, attempted := st.attempted }
  else
    { post := { st.post with
        status := "failed",
        error := some { message := "Failed to publish to all platforms",
                        code := "ALL_PLATFORMS_FAILED", timestamp := now } },
      user := user, httpStatus := 200, success := true, message := message,
      resultsSnapchat := st.resSnap, resultsInstagram := st.resInsta,
      resultsYoutube := st.resYt, errors := st.errors, attempted := st.attempted }

/-- The platform fan-out phase of `publishPost`, parameterized by the three
target flags. -/
def runPublish (pubS pubI pubY : Bool) (env : PublishEnv) (now : Nat)
    (user : UserDoc) (post : PostDoc) : PubOutcome :=
  let st0 : PubSt := { post := post, resSnap := none, resInsta := none, resYt := none,
                       errors := [], attempted := [] }
  match (do
    let st1 ← snapStep pubS pubI env.snapOutcome now user st0
    let st2 ← instaStep pubS pubI env.instaOutcome now user st1
    ytStep pubS pubI pubY env.ytOutcome now user st2 : Except PubOutcome PubSt) with
  | .error out => out
  | .ok st => finalizePublish pubS pubI pubY now user st

/-- `exports.publishPost` from `src/controllers/postController.js`
(lines 250-600): precondition ladder, per-platform fan-out, final status
resolution. -/
def publishPost (post : PostDoc) (user : UserDoc) (env : PublishEnv)
    (now : Nat) : PubOutcome :=
  match checkPreconditions post user with
  | some (code, msg) => mkReject post user code msg
  | none =>
    let platform := effectivePlatform post.platform
    runPublish (publishToSnapchat platform) (publishToInstagram platform)
      (publishToYouTube platform) env now user post

/-- One platform's entry in the scheduled sweep's `publishResults` map; the
sweep, unlike the direct path, also stores `{success:false, error}`
entries. -/
structure SchedPlatResult where
  success : Bool
  postId : Option String
  error : Option String
  deriving Repr, DecidableEq

/-- One entry of the sweep's `results.errors`: `{postId, title, error}`. -/
structure SchedError where
  postId : Nat
  title : String
  error : String
  deriving Repr, DecidableEq

/-- A due scheduled post as selected by the sweep: document id, post
document, and the populated owning user (possibly `null`). -/
structure SchedPost where
  id : Nat
  post : PostDoc
  user : Option UserDoc
  deriving Repr, DecidableEq

/-- The environment of one scheduled post's attempt: the outcome of each
platform try-block, had it run. -/
structure SchedPlatEnv where
  snapOutcome : Except String SnapResponse
  instaOutcome : Except String InstaResult

/-- Sweep-path platform selector test for Snapchat
(postController.js line 811): only `snapchat` and `both` are recognized. -/
def schedPublishToSnapchat (platform : String) : Bool :=
  platform = "snapchat" || platform = "both"

/-- Sweep-path platform selector test for Instagram
(postController.js line 812): only `instagram` and `both` are recognized. -/
def schedPublishToInstagram (platform : String) : Bool :=
  platform = "instagram" || platform = "both"

/-- State threaded through one scheduled post's try-block. -/
structure SchedInnerSt where
  post : PostDoc
  resSnap : Option SchedPlatResult
  resInsta : Option SchedPlatResult
  attempted : List String
  deriving Repr, DecidableEq

/-- The sweep's per-post checks that throw before any platform section
(postController.js lines 814-831), in source order: connection checks, plan
limit, media requirement; returns the thrown message, if any. -/
def schedThrowChecks (user : UserDoc) (post : PostDoc) : Option String :=
  let platform := effectivePlatform post.platform
  let pubS := schedPublishToSnapchat platform
  let pubI := schedPublishToInstagram platform
  if pubS && !user.snapchatConnected then
    some "Snapchat account not connected"
  else if pubI && !user.instagramConnected then
    some "Instagram account not connected"
  else
    let limits := getPlanLimits user.plan
    if limits.postsPerMonth ≠ -1 && (user.postsThisMonth : Int) ≥ limits.postsPerMonth then
      some ("Monthly post limit reached (" ++ toString limits.postsPerMonth ++ ")")
    else if !(jsTruthy post.mediaUrl) then
      some "Media required for publishing"
    else
      none

/-- The body of the sweep's per-post try-block (postController.js lines
805-916), up to but excluding the status resolution: checks that throw,
then the two platform sections. `.error (msg, st)` models a throw reaching
the per-post catch with the state accumulated so far. -/
def schedInner (user : UserDoc) (post : PostDoc) (env : SchedPlatEnv)
    : Except (String × SchedInnerSt) SchedInnerSt :=
  let platform := effectivePlatform post.platform
  let pubS := schedPublishToSnapchat platform
  let pubI := schedPublishToInstagram platform
  let st0 : SchedInnerSt := { post := post, resSnap := none, resInsta := none, attempted := [] }
  match schedThrowChecks user post with
  | some m => .error (m, st0)
  | none =>
      let st1 : Except (String × SchedInnerSt) SchedInnerSt :=
        if pubS then
          match env.snapOutcome with
          | .ok r =>
            let pid := snapPostIdOf r
            .ok { st0 with post := { st0.post with snapchatPostId := some pid },
                           resSnap := some { success := true, postId := some pid, error := none },
                           attempted := st0.attempted ++ ["snapchat"] }
          | .error msg =>
            let st := { st0 with resSnap := some { success := false, postId := none, error := some msg },
                                 attempted := st0.attempted ++ ["snapchat"] }
            if !pubI then .error (msg, st) else .ok st
        else .ok st0
      match st1 with
      | .error e => .error e
      | .ok st1 =>
        if pubI then
          let eff : Except String String :=
            match env.instaOutcome with
            | .ok r =>
              if jsTruthy r.postId then .ok (jsStrOr r.postId "")
              else .error "No post ID returned from Instagram"
            | .error msg => .error msg
          match eff with
          | .ok pid =>
            .ok { st1 with post := { st1.post with instagramPostId := some pid },
                           resInsta := some { success := true, postId := some pid, error := none },
                           attempted := st1.attempted ++ ["instagram"] }
          | .error msg =>
            let st := { st1 with resInsta := some { success := false, postId := none, error := some msg },
                                 attempted := st1.attempted ++ ["instagram"] }
            if !pubS then .error (msg, st) else .ok st
        else .ok st1

/-- One post's contribution to the sweep: the saved post and user states,
whether it was counted as `published` (otherwise as `failed`), the
`results.errors` entry (if any), and the platform try-blocks entered. -/
structure SchedStepResult where
  post : PostDoc
  user : Option UserDoc
  publishedFlag : Bool
  errorEntry : Option SchedError
  attempted : List String
  deriving Repr, DecidableEq

/-- One iteration of the sweep's per-post loop (postController.js lines
797-935): the `post.user` null-skip, the try-block, the status resolution
`snapchatSuccess || instagramSuccess`, and the catch that records an error
entry and marks the post failed. -/
def processScheduledPost (sp : SchedPost) (env : SchedPlatEnv) (now : Nat)
    : SchedStepResult :=
  match sp.user with
  | none =>
    { post := sp.post, user := none, publishedFlag := false, errorEntry := none,
      attempted := [] }
  | some user =>
    match schedInner user sp.post env with
    | .ok st =>
      let platform := effectivePlatform sp.post.platform
      let pubS := schedPublishToSnapchat platform
      let pubI := schedPublishToInstagram platform
      let snapchatSuccess := !pubS || (st.resSnap.map (fun r => r.success)).getD false
      let instagramSuccess := !pubI || (st.resInsta.map (fun r => r.success)).getD false
      if snapchatSuccess || instagramSuccess then
        { post := { st.post with status := "published", publishedAt := some now },
          user := some { user with postsThisMonth := user.postsThisMonth + 1 },
          publishedFlag := true, errorEntry := none, attempted := st.attempted }
      else
        { post := { st.post with
            status := "failed",
            error := some { message := "Failed to publish to all platforms",
                            code := "SCHEDULER_PUBLISH_FAILED", timestamp := now } },
          user := some user, publishedFlag := false, errorEntry := none,
          attempted := st.attempted }
    | .error (msg, st) =>
      { post := { st.post with
          status := "failed",
          error := some { message := msg, code := "SCHEDULER_ERROR", timestamp := now } },
        user := some user, publishedFlag := false,
        errorEntry := some { postId := sp.id, title := sp.post.title, error := msg },
        attempted := st.attempted }

/-- The sweep's `results` summary `{total, published, failed, errors}`. -/
structure SweepResults where
  total : Nat
  published : Nat
  failed : Nat
  errors : List SchedError
  deriving Repr, DecidableEq

/-- `exports.autoPublishScheduledPosts` from
`src/controllers/postController.js` (lines 764-952), after the cron-secret
check: process every due post (each iteration is isolated by its own
try/catch, modelled by `processScheduledPost` being total) and accumulate
the summary. -/
def autoPublishScheduledPosts (posts : List (SchedPost × SchedPlatEnv))
    (now : Nat) : SweepResults × List SchedStepResult :=
  let steps := posts.map (fun pe => processScheduledPost pe.1 pe.2 now)
  ({ total := posts.length,
     published := (steps.filter (fun s => s.publishedFlag)).length,
     failed := (steps.filter (fun s => !s.publishedFlag)).length,
     errors := steps.filterMap (fun s => s.errorEntry) }, steps)

/-- An account credential record (one platform, embedded under the user):
connection flag, tokens, expiry in epoch milliseconds. -/
structure Credential where
  isConnected : Bool
  accessToken : String
  refreshToken : String
  expiresAt : Nat
  deriving Repr, DecidableEq

/-- A Snapchat token-refresh response (`refreshAccessToken`):
`{accessToken, refreshToken, expiresIn}` with `expiresIn` in seconds. -/
structure RefreshResult where
  accessToken : String
  refreshToken : String
  expiresIn : Nat
  deriving Repr, DecidableEq

/-- `ensureValidToken` from `src/controllers/snapchatController.js`
(lines 217-258), modelled as `(credential, refresh outcome, now) ->
(new credential, token)`: fail when not connected; refresh exactly when
`now >= expiresAt`, persisting the rotated token tuple with expiry
`now + expiresIn * 1000`; otherwise return the stored token unchanged. -/
def snapchatEnsureValidToken (cred : Credential)
    (refresh : Except String RefreshResult) (now : Nat)
    : Except String (Credential × String) :=
  if !cred.isConnected then
    .error "Snapchat account not connected"
  else if now ≥ cred.expiresAt then
    match refresh with
    | .ok tokens =>
      let cred' := { cred with
        accessToken := tokens.accessToken,
        refreshToken := tokens.refreshToken,
        expiresAt := now + tokens.expiresIn * 1000 }
      .ok (cred', cred'.accessToken)
    | .error _ =>
      .error "Failed to refresh Snapchat token. Please reconnect your account."
  else
    .ok (cred, cred.accessToken)

/-- An Instagram token-refresh response (`refreshAccessToken` in
`instagramService`): `{access_token, expires_in}` in seconds. -/
structure IgRefreshResult where
  access_token : String
  expires_in : Nat
  deriving Repr, DecidableEq

/-- The number of milliseconds in the Instagram token manager's 7-day
refresh lookahead window (`7 * 24 * 60 * 60 * 1000`). -/
def igLookaheadMs : Nat := 7 * 24 * 60 * 60 * 1000

/-- `exports.ensureValidToken` from
`src/controllers/mediaLibraryController.js` (lines 574-602), the Instagram
variant: fail when not connected; refresh when the stored expiry is within
the 7-day lookahead window (`expiresAt < now + 7 days`), persisting the new
access token and expiry `now + expires_in * 1000`; return the (possibly
refreshed) account record. -/
def instagramEnsureValidToken (cred : Credential)
    (refresh : Except String IgRefreshResult) (now : Nat)
    : Except String Credential :=
  if !cred.isConnected then
    .error "Instagram account not connected"
  else if cred.expiresAt < now + igLookaheadMs then
    match refresh with
    | .ok t =>
      .ok { cred with accessToken := t.access_token, expiresAt := now + t.expires_in * 1000 }
    | .error m => .error m
  else
    .ok cred

/-- The Instagram container-status polling loop of
`instagramService.uploadAndPublish` (instagramService.js lines 352-361):
`while (statusCode === 'IN_PROGRESS' && attempts < maxAttempts)` with
`maxAttempts = 20`, each iteration waiting 6000 ms and then performing one
status check. `check n` is the status returned by the `(n+1)`-th check; the
fuel argument (20 at entry, an upper bound on the remaining iterations
since `attempts` only increases) makes the recursion structural. Returns
`(final status, attempts, waited ms)`. -/
def pollGo (check : Nat → String) : Nat → String → Nat → Nat → String × Nat × Nat
  | 0, statusCode, attempts, waited => (statusCode, attempts, waited)
  | fuel + 1, statusCode, attempts, waited =>
    if statusCode = "IN_PROGRESS" && attempts < 20 then
      pollGo check fuel (check attempts) (attempts + 1) (waited + 6000)
    else
      (statusCode, attempts, waited)

/-- The polling loop entered with `statusCode = 'IN_PROGRESS'`,
`attempts = 0`. -/
def pollContainerStatus (check : Nat → String) : String × Nat × Nat :=
  pollGo check 20 "IN_PROGRESS" 0 0

/-- The environment of one `uploadAndPublish` call: the container-creation
outcome, the status returned by each poll, and the publish-call outcome
(`response.data.id`, possibly absent). -/
structure IgEnv where
  containerOutcome : Except String String
  check : Nat → String
  publishOutcome : Except String (Option String)

/-- `uploadAndPublish` from `src/services/instagramService.js` (lines
335-388): create the container; for `VIDEO`, run the bounded polling loop
and fail with `Video processing failed` on `ERROR`, `Video processing
timeout` on any other non-`FINISHED` outcome; then publish. (The variant in
`src/unnamed/part_010` additionally rejects a missing publish id; the
module loaded by the controller, `src/services/instagramService.js`, does
not, and the controller guards the id itself.) -/
def igUploadAndPublish (mediaType : String) (env : IgEnv)
    : Except String InstaResult :=
  match env.containerOutcome with
  | .error m => .error m
  | .ok containerId =>
    let gate : Except String Unit :=
      if mediaType = "VIDEO" then
        let statusCode := (pollContainerStatus env.check).1
        if statusCode = "ERROR" then .error "Video processing failed"
        else if statusCode ≠ "FINISHED" then .error "Video processing timeout"
        else .ok ()
      else .ok ()
    match gate with
    | .error m => .error m
    | .ok _ =>
      match env.publishOutcome with
      | .error m => .error m
      | .ok pid => .ok { postId := pid, containerId := containerId }

/-- The request body of `updatePost`; a `some` value models a provided
truthy field (for `mediaUrl`, the outer option is the `!== undefined` test
and the inner value is stored as-is). -/
structure UpdateBody where
  title : Option String
  content : Option String
  mediaUrl : Option (Option String)
  mediaType : Option String
  platform : Option String
  scheduledFor : Option Nat
  status : Option String
  deriving Repr, DecidableEq

/-- `exports.updatePost` from `src/controllers/postController.js` (lines
135-184): reject edits to published posts, otherwise apply the provided
fields in source order (`scheduledFor` also forces `status := scheduled`,
which an explicit `status` field then overrides). -/
def updatePost (post : PostDoc) (body : UpdateBody) : Except (Nat × String) PostDoc :=
  if post.status = "published" then
    .error (400, "Cannot edit published posts")
  else
    let p := post
    let p := if jsTruthy body.title then { p with title := jsStrOr body.title p.title } else p
    let p := if jsTruthy body.content then { p with content := jsStrOr body.content p.content } else p
    let p := match body.mediaUrl with
      | some v => { p with mediaUrl := v }
      | none => p
    let p := if jsTruthy body.mediaType then { p with mediaType := jsStrOr body.mediaType p.mediaType } else p
    let p := if jsTruthy body.platform then { p with platform := body.platform } else p
    let p := match body.scheduledFor with
      | some t => { p with scheduledFor := some t, status := "scheduled" }
      | none => p
    let p := if jsTruthy body.status then { p with status := jsStrOr body.status p.status } else p
    .ok p

/-- `syncPostAnalytics` from `src/controllers/postController.js` (lines
605-639): require an Instagram post id and a connected account, then (token
check and insights fetch folded into the `insights` outcome) overwrite the
post's Instagram analytics block and `lastSynced`. -/
def syncPostAnalytics (post : PostDoc) (user : UserDoc)
    (insights : Except String IgAnalytics) (now : Nat)
    : Except String PostDoc :=
  if !(jsTruthy post.instagramPostId) then
    .error "Post not published to Instagram"
  else if !user.instagramConnected then
    .error "Instagram account not connected"
  else
    match insights with
    | .error m => .error m
    | .ok a =>
      .ok { post with analyticsInstagram := a, analyticsLastSynced := some now }

/-- Whether a Snapchat try-block outcome counts as a recorded success. -/
def snapOk : Except String SnapResponse → Bool
  | .ok _ => true
  | .error _ => false

/-- Whether an Instagram try-block outcome counts as a recorded success: the
resolved result must carry a truthy post id, otherwise the controller's own
guard throws. -/
def instaOk : Except String InstaResult → Bool
  | .ok r => jsTruthy r.postId
  | .error _ => false

/-- Whether a YouTube try-block outcome counts as a recorded success. -/
def ytOk : Except String YtResult → Bool
  | .ok _ => true
  | .error _ => false

/-- Every targeted platform's attempt would be recorded as a success. -/
def allTargetsOk (pubS pubI pubY : Bool) (env : PublishEnv) : Bool :=
  (!pubS || snapOk env.snapOutcome) && (!pubI || instaOk env.instaOutcome) &&
    (!pubY || ytOk env.ytOutcome)

/-- At least one targeted platform's attempt would be recorded as a
success. -/
def someTargetOk (pubS pubI pubY : Bool) (env : PublishEnv) : Bool :=
  (pubS && snapOk env.snapOutcome) || (pubI && instaOk env.instaOutcome) ||
    (pubY && ytOk env.ytOutcome)

/-- The condition under which the direct publish path takes one of its early
`return res.status(500)` exits: a platform failure whose catch-block guard
(`!publishToInstagram` / `!publishToSnapchat` /
`!publishToSnapchat && !publishToInstagram`) holds. -/
def earlyAbort (pubS pubI pubY : Bool) (env : PublishEnv) : Bool :=
  (pubS && !snapOk env.snapOutcome && !pubI) ||
  (pubI && !instaOk env.instaOutcome && !pubS) ||
  (pubY && !ytOk env.ytOutcome && !pubS && !pubI)

/-- A draft post fixture with media, targeting Snapchat only. -/
def basePost : PostDoc :=
  { title := "hello", content := "world", mediaUrl := some "http://media",
    mediaType := "image", platform := some "snapchat", status := "draft",
    scheduledFor := none, publishedAt := none, snapchatPostId := none,
    instagramPostId := none, youtubeVideoId := none,
    analyticsInstagram := ⟨0, 0, 0, 0, 0, 0⟩, analyticsLastSynced := none,
    error := none }

/-- A fully connected free-plan user fixture with zero posts this month. -/
def baseUser : UserDoc :=
  { snapchatConnected := true, instagramConnected := true,
    youtubeConnected := true, plan := "free", postsThisMonth := 0 }

/-- `basePost` targeting the `snapchat_instagram` pair. -/
def siPost : PostDoc := { basePost with platform := some "snapchat_instagram" }

/-- A video post targeting the `snapchat_youtube` pair. -/
def syPost : PostDoc :=
  { basePost with platform := some "snapchat_youtube", mediaType := "video" }

/-- `basePost` already published. -/
def publishedPost : PostDoc := { basePost with status := "published" }

/-- Environment: Snapchat throws, Instagram and YouTube would succeed. -/
def envSnapFail : PublishEnv :=
  ⟨.error "boom", .ok ⟨some "ig1", "c1"⟩, .ok ⟨"v1", "u1"⟩⟩

/-- Environment: Snapchat and Instagram both throw. -/
def envBothFail : PublishEnv :=
  ⟨.error "snap down", .error "insta down", .ok ⟨"v1", "u1"⟩⟩

/-- Environment: Snapchat succeeds, Instagram resolves without a post id. -/
def envInstaNoId : PublishEnv :=
  ⟨.ok ⟨some "s1", none⟩, .ok ⟨none, "c1"⟩, .ok ⟨"v1", "u1"⟩⟩

/-- Environment: every platform succeeds (Snapchat response with no
extractable id). -/
def envAllOk : PublishEnv :=
  ⟨.ok ⟨none, none⟩, .ok ⟨some "ig1", "c1"⟩, .ok ⟨"v1", "u1"⟩⟩

/-- Sweep environment: both platform attempts would succeed. -/
def schedEnvOk : SchedPlatEnv := ⟨.ok ⟨some "s1", none⟩, .ok ⟨some "ig1", "c1"⟩⟩

/-- Sweep environment: both platform attempts would throw. -/
def schedEnvFail : SchedPlatEnv := ⟨.error "snap down", .error "insta down"⟩

/-- Sweep fixture: due post 1, valid owner. -/
def sweepPost1 : SchedPost := ⟨1, basePost, some baseUser⟩

/-- Sweep fixture: due post 2, owning user reference null. -/
def sweepPost2 : SchedPost := ⟨2, basePost, none⟩

/-- Sweep fixture: due post 3, valid owner. -/
def sweepPost3 : SchedPost := ⟨3, basePost, some baseUser⟩

/-- The three-due-posts sweep scenario of the spec's testable property:
post 2's owning user is null, the others succeed. -/
def sweepPosts : List (SchedPost × SchedPlatEnv) :=
  [(sweepPost1, schedEnvOk), (sweepPost2, schedEnvOk), (sweepPost3, schedEnvOk)]

/-- A poll-status sequence that reports `IN_PROGRESS` twice and then
`FINISHED`. -/
def finishAfterTwo : Nat → String :=
  fun i => if i < 2 then "IN_PROGRESS" else "FINISHED"

theorem length_filter_split {α : Type} (l : List α) (p : α → Bool) :
    (l.filter p).length + (l.filter (fun a => !p a)).length = l.length := by
  induction l with
  | nil => rfl
  | cons a tl ih =>
    cases h : p a <;> simp [List.filter, h] <;> omega

theorem processScheduledPost_errorEntry (sp : SchedPost) (env : SchedPlatEnv)
    (now : Nat) (e : SchedError)
    (h : (processScheduledPost sp env now).errorEntry = some e) :
    e.postId = sp.id ∧ (processScheduledPost sp env now).publishedFlag = false := by
  unfold processScheduledPost at *
  cases hu : sp.user with
  | none => simp [hu] at h
  | some user =>
    simp only [hu] at h ⊢
    cases hin : schedInner user sp.post env with
    | ok st =>
      simp only [hin] at h ⊢
      split at h <;> simp_all
    | error pr =>
      rcases pr with ⟨msg, st⟩
      simp only [hin] at h ⊢
      rcases h with h
      simp at h
      simp [← h]

theorem publishPost_already_published (post : PostDoc) (user : UserDoc)
    (env : PublishEnv) (now : Nat) (h : post.status = "published") :
    publishPost post user env now = mkReject post user 400 "Post is already published" := by
  simp [publishPost, checkPreconditions, h]

set_option maxHeartbeats 1600000 in
theorem runPublish_cases (pubS pubI pubY : Bool) (env : PublishEnv) (now : Nat)
    (user : UserDoc) (post : PostDoc) (out : PubOutcome)
    (hout : out = runPublish pubS pubI pubY env now user post) :
    (earlyAbort pubS pubI pubY env = false →
      (allTargetsOk pubS pubI pubY env = true →
        out.post.status = "published" ∧ out.post.publishedAt = some now ∧
        out.user.postsThisMonth = user.postsThisMonth + 1 ∧ out.errors = []) ∧
      (someTargetOk pubS pubI pubY env = true → allTargetsOk pubS pubI pubY env = false →
        out.post.status = "published" ∧ out.post.publishedAt = some now ∧
        out.user.postsThisMonth = user.postsThisMonth + 1 ∧ out.errors.isEmpty = false) ∧
      (pubS = true → pubI = true → pubY = true → someTargetOk pubS pubI pubY env = false →
        out.post.status = "failed" ∧
        out.post.error = some ⟨"Failed to publish to all platforms", "ALL_PLATFORMS_FAILED", now⟩ ∧
        out.user.postsThisMonth = user.postsThisMonth) ∧
      (pubS = true → pubI = true → pubY = false → someTargetOk pubS pubI pubY env = false →
        out.post.status = "published" ∧ out.post.publishedAt = some now ∧
        out.user.postsThisMonth = user.postsThisMonth + 1 ∧ out.errors.isEmpty = false)) ∧
    (pubS = true → pubI = false → snapOk env.snapOutcome = false →
      out.post.status = "failed" ∧ out.user.postsThisMonth = user.postsThisMonth ∧
      out.httpStatus = 500 ∧
      (∀ m, env.snapOutcome = .error m → out.post.error = some ⟨m, "SNAPCHAT_ERROR", now⟩)) ∧
    (pubI = true → pubS = false → instaOk env.instaOutcome = false →
      out.post.status = "failed" ∧ out.user.postsThisMonth = user.postsThisMonth ∧
      out.httpStatus = 500 ∧
      (∀ m, env.instaOutcome = .error m → out.post.error = some ⟨m, "INSTAGRAM_ERROR", now⟩) ∧
      (∀ r, env.instaOutcome = .ok r →
        out.post.error = some ⟨"No post ID returned from Instagram", "INSTAGRAM_ERROR", now⟩)) ∧
    (pubY = true → pubS = false → pubI = false → ytOk env.ytOutcome = false →
      out.post.status = "failed" ∧ out.user.postsThisMonth = user.postsThisMonth ∧
      out.httpStatus = 500 ∧
      (∀ m, env.ytOutcome = .error m → out.post.error = some ⟨m, "YOUTUBE_ERROR", now⟩)) := by
  subst hout
  rcases env with ⟨so, io, yo⟩
  cases pubS <;> cases pubI <;> cases pubY <;>
    cases so <;> cases io <;> cases yo <;>
      (try simp_all [runPublish, snapStep, instaStep, ytStep, finalizePublish, mkEarlyFail,
            allTargetsOk, someTargetOk, earlyAbort, snapOk, instaOk, ytOk, Bind.bind, Except.bind])
  all_goals
    (rename_i r z
     cases hj : jsTruthy r.postId <;>
       simp_all [runPublish, snapStep, instaStep, ytStep, finalizePublish, mkEarlyFail,
         allTargetsOk, someTargetOk, earlyAbort, snapOk, instaOk, ytOk, Bind.bind, Except.bind])

theorem pollGo_attempts_le (check : Nat → String) :
    ∀ fuel statusCode attempts waited, attempts + fuel ≤ 20 →
      (pollGo check fuel statusCode attempts waited).2.1 ≤ 20 := by
  intro fuel
  induction fuel with
  | zero => intro st a w h; simpa [pollGo] using (by omega : a ≤ 20)
  | succ n ih =>
    intro st a w h
    rw [pollGo]
    split
    · exact ih _ _ _ (by omega)
    · simpa using (by omega : a ≤ 20)

theorem pollGo_waited (check : Nat → String) :
    ∀ fuel statusCode attempts waited, waited = 6000 * attempts →
      (pollGo check fuel statusCode attempts waited).2.2 =
        6000 * (pollGo check fuel statusCode attempts waited).2.1 := by
  intro fuel
  induction fuel with
  | zero => intro st a w h; simpa [pollGo] using h
  | succ n ih =>
    intro st a w h
    rw [pollGo]
    split
    · exact ih _ _ _ (by omega)
    · simpa using h

/-- C6: publishing an already-published post returns the
`Post is already published` rejection and performs no mutation: the saved
post and user equal the inputs (so status, platform ids, error field and the
usage counter are unchanged) and no platform try-block — token refresh
included — is entered. -/
theorem c6_already_published_idempotent (post : PostDoc) (user : UserDoc)
    (env : PublishEnv) (now : Nat) (h : post.status = "published") :
    publishPost post user env now = mkReject post user 400 "Post is already published" ∧
    (publishPost post user env now).post = post ∧
    (publishPost post user env now).user = user ∧
    (publishPost post user env now).attempted = [] ∧
    (publishPost post user env now).httpStatus = 400 ∧
    (publishPost post user env now).message = "Post is already published" ∧
    (publishPost post user env now).success = false := by
  have hr := publishPost_already_published post user env now h
  simp [hr, mkReject]

/-- Witness for C6 at a concrete published post. -/
theorem c6_witness :
    publishedPost.status = "published" ∧
    (publishPost publishedPost baseUser envAllOk 1000).post = publishedPost ∧
    (publishPost publishedPost baseUser envAllOk 1000).attempted = [] :=
  ⟨rfl, (c6_already_published_idempotent publishedPost baseUser envAllOk 1000 rfl).2.1,
    (c6_already_published_idempotent publishedPost baseUser envAllOk 1000 rfl).2.2.2.1⟩

/-- C9: once a post is published its editable fields are immutable:
`updatePost` rejects any edit, `publishPost` rejects re-publishing (saving
nothing), and `syncPostAnalytics` changes only the analytics block and
`lastSynced`, preserving title, content, media and platform fields. -/
theorem c9_published_immutable (post : PostDoc) (h : post.status = "published") :
    (∀ body, updatePost post body = .error (400, "Cannot edit published posts")) ∧
    (∀ user env now, publishPost post user env now =
        mkReject post user 400 "Post is already published" ∧
      (publishPost post user env now).post = post) ∧
    (∀ user insights now p', syncPostAnalytics post user insights now = .ok p' →
      p'.title = post.title ∧ p'.content = post.content ∧
      p'.mediaUrl = post.mediaUrl ∧ p'.mediaType = post.mediaType ∧
      p'.platform = post.platform ∧ p'.status = post.status ∧
      p'.snapchatPostId = post.snapchatPostId ∧
      p'.instagramPostId = post.instagramPostId) := by
  refine ⟨?_, ?_, ?_⟩
  · intro body
    simp [updatePost, h]
  · intro user env now
    have hr := publishPost_already_published post user env now h
    exact ⟨hr, by simp [hr, mkReject]⟩
  · intro user insights now p' hs
    unfold syncPostAnalytics at hs
    split at hs
    · exact absurd hs (by simp)
    · split at hs
      · exact absurd hs (by simp)
      · split at hs
        · exact absurd hs (by simp)
        · rename_i a heq
          obtain hp := Except.ok.inj hs
          subst hp
          simp

/-- Witness for C9 at a concrete published post. -/
theorem c9_witness :
    updatePost publishedPost ⟨some "x", none, none, none, none, none, none⟩ =
      Except.error (400, "Cannot edit published posts") ∧
    ({ publishedPost with
        instagramPostId := some "ig1",
        analyticsInstagram := ⟨1, 2, 3, 4, 5, 6⟩,
        analyticsLastSynced := some 999 } : PostDoc).title =
      ({ publishedPost with instagramPostId := some "ig1" } : PostDoc).title := by
  refine ⟨(c9_published_immutable publishedPost rfl).1 _, ?_⟩
  exact ((c9_published_immutable { publishedPost with instagramPostId := some "ig1" } rfl).2.2
    baseUser (.ok ⟨1, 2, 3, 4, 5, 6⟩) 999
    { publishedPost with
      instagramPostId := some "ig1",
      analyticsInstagram := ⟨1, 2, 3, 4, 5, 6⟩,
      analyticsLastSynced := some 999 }
    rfl).1

/-- C1 (amended): for a publish invocation whose preconditions pass, with
target flags `pubS`/`pubI`/`pubY` derived from the post's platform selector:
when no early short-circuit fires, all targets succeeding yields
`published`, `publishedAt = now`, usage incremented by exactly 1 and an
empty error list; a partial success still yields `published`, usage +1, and
a non-empty per-platform error list; an all-targets failure yields `failed`
with error `Failed to publish to all platforms` and unchanged usage only
when all three platforms are targeted, while for the snapchat+instagram
pair it still yields `published` with usage +1 (the untargeted YouTube slot
counts vacuously as a success). A failure whose catch-guard short-circuits
(single-platform targets, or a YouTube-paired target whose Snapchat or
Instagram attempt fails) yields `failed` with that platform's own error
message and code and unchanged usage. -/
theorem c1_publish_status_resolution (post : PostDoc) (user : UserDoc)
    (env : PublishEnv) (now : Nat) (out : PubOutcome) (pubS pubI pubY : Bool)
    (hS : pubS = publishToSnapchat (effectivePlatform post.platform))
    (hI : pubI = publishToInstagram (effectivePlatform post.platform))
    (hY : pubY = publishToYouTube (effectivePlatform post.platform))
    (hpre : checkPreconditions post user = none)
    (hout : out = publishPost post user env now) :
    (earlyAbort pubS pubI pubY env = false →
      (allTargetsOk pubS pubI pubY env = true →
        out.post.status = "published" ∧ out.post.publishedAt = some now ∧
        out.user.postsThisMonth = user.postsThisMonth + 1 ∧ out.errors = []) ∧
      (someTargetOk pubS pubI pubY env = true → allTargetsOk pubS pubI pubY env = false →
        out.post.status = "published" ∧ out.post.publishedAt = some now ∧
        out.user.postsThisMonth = user.postsThisMonth + 1 ∧ out.errors.isEmpty = false) ∧
      (pubS = true → pubI = true → pubY = true → someTargetOk pubS pubI pubY env = false →
        out.post.status = "failed" ∧
        out.post.error = some ⟨"Failed to publish to all platforms", "ALL_PLATFORMS_FAILED", now⟩ ∧
        out.user.postsThisMonth = user.postsThisMonth) ∧
      (pubS = true → pubI = true → pubY = false → someTargetOk pubS pubI pubY env = false →
        out.post.status = "published" ∧ out.post.publishedAt = some now ∧
        out.user.postsThisMonth = user.postsThisMonth + 1 ∧ out.errors.isEmpty = false)) ∧
    (pubS = true → pubI = false → snapOk env.snapOutcome = false →
      out.post.status = "failed" ∧ out.user.postsThisMonth = user.postsThisMonth ∧
      out.httpStatus = 500 ∧
      (∀ m, env.snapOutcome = .error m → out.post.error = some ⟨m, "SNAPCHAT_ERROR", now⟩)) ∧
    (pubI = true → pubS = false → instaOk env.instaOutcome = false →
      out.post.status = "failed" ∧ out.user.postsThisMonth = user.postsThisMonth ∧
      out.httpStatus = 500 ∧
      (∀ m, env.instaOutcome = .error m → out.post.error = some ⟨m, "INSTAGRAM_ERROR", now⟩) ∧
      (∀ r, env.instaOutcome = .ok r →
        out.post.error = some ⟨"No post ID returned from Instagram", "INSTAGRAM_ERROR", now⟩)) ∧
    (pubY = true → pubS = false → pubI = false → ytOk env.ytOutcome = false →
      out.post.status = "failed" ∧ out.user.postsThisMonth = user.postsThisMonth ∧
      out.httpStatus = 500 ∧
      (∀ m, env.ytOutcome = .error m → out.post.error = some ⟨m, "YOUTUBE_ERROR", now⟩)) := by
  subst hS hI hY
  refine runPublish_cases _ _ _ env now user post out (hout.trans ?_)
  simp [publishPost, hpre]

/-- Counterexample to C1 as stated: (a) a single-target Snapchat post whose
attempt fails is saved as `failed` with the platform's own error message
`boom` and code `SNAPCHAT_ERROR`, not `Failed to publish to all platforms`;
(b) a snapchat_instagram post whose two targeted attempts both fail is
still saved as `published` with usage incremented, not `failed`. -/
theorem c1_counterexample :
    (publishPost basePost baseUser envSnapFail 1000).post.status = "failed" ∧
    (publishPost basePost baseUser envSnapFail 1000).post.error =
      some ⟨"boom", "SNAPCHAT_ERROR", 1000⟩ ∧
    (("boom" : String) == "Failed to publish to all platforms") = false ∧
    (publishPost siPost baseUser envBothFail 1000).post.status = "published" ∧
    (publishPost siPost baseUser envBothFail 1000).user.postsThisMonth = 1 := by
  decide

/-- Witness for C1: a snapchat_instagram post with a failing Snapchat
attempt and a succeeding Instagram attempt is a partial success. -/
theorem c1_witness :
    (publishPost siPost baseUser envSnapFail 1000).post.status = "published" ∧
    (publishPost siPost baseUser envSnapFail 1000).user.postsThisMonth =
      baseUser.postsThisMonth + 1 ∧
    (publishPost siPost baseUser envSnapFail 1000).errors.isEmpty = false := by
  have h := c1_publish_status_resolution siPost baseUser envSnapFail 1000
    (publishPost siPost baseUser envSnapFail 1000) true true false
    (by decide) (by decide) (by decide) (by decide) rfl
  have hp := (h.1 (by decide)).2.1 (by decide) (by decide)
  exact ⟨hp.1, hp.2.2.1, hp.2.2.2⟩

/-- C2: the scheduled sweep does not perform the direct path's platform
fan-out: its selector test recognizes only `snapchat`, `instagram` and the
obsolete `both`, so a due `snapchat_instagram` post (both platforms in the
direct path) has no platform try-block entered at all, yet is saved as
`published` with usage incremented. -/
theorem c2_scheduler_drops_combined_targets :
    publishToSnapchat "snapchat_instagram" = true ∧
    publishToInstagram "snapchat_instagram" = true ∧
    schedPublishToSnapchat "snapchat_instagram" = false ∧
    schedPublishToInstagram "snapchat_instagram" = false ∧
    (publishPost siPost baseUser envAllOk 1000).attempted = ["snapchat", "instagram"] ∧
    (processScheduledPost ⟨7, siPost, some baseUser⟩ schedEnvFail 1000).attempted = [] ∧
    (processScheduledPost ⟨7, siPost, some baseUser⟩ schedEnvFail 1000).post.status = "published" ∧
    (processScheduledPost ⟨7, siPost, some baseUser⟩ schedEnvFail 1000).publishedFlag = true ∧
    (processScheduledPost ⟨7, siPost, some baseUser⟩ schedEnvFail 1000).user =
      some { baseUser with postsThisMonth := 1 } := by
  decide

/-- C3: in the direct path, a Snapchat failure on a `snapchat_youtube` post
takes the early `!publishToInstagram` return: only the Snapchat try-block is
entered, the YouTube attempt is never made, and the post is saved as
`failed` — contradicting the claim that sibling attempts always proceed. -/
theorem c3_snapchat_failure_aborts_sibling :
    publishToSnapchat "snapchat_youtube" = true ∧
    publishToYouTube "snapchat_youtube" = true ∧
    checkPreconditions syPost baseUser = none ∧
    (publishPost syPost baseUser envSnapFail 1000).attempted = ["snapchat"] ∧
    ((publishPost syPost baseUser envSnapFail 1000).attempted.contains "youtube") = false ∧
    (publishPost syPost baseUser envSnapFail 1000).httpStatus = 500 ∧
    (publishPost syPost baseUser envSnapFail 1000).message = "Failed to publish to Snapchat" ∧
    (publishPost syPost baseUser envSnapFail 1000).post.status = "failed" ∧
    (publishPost syPost baseUser envSnapFail 1000).resultsYoutube = none := by
  decide

/-- C4: each platform's `ensureValidToken` never returns a credential whose
recorded expiry is not in the future (given that a successful refresh grants
a positive lifetime), and the Instagram variant — whose 7-day lookahead
window is at least one second — refreshes (persisting the new token and
expiry) before returning on an account whose expiry is one second away. -/
theorem c4_ensure_valid_token :
    (∀ cred refresh now cred' tok,
      snapchatEnsureValidToken cred refresh now = .ok (cred', tok) →
      (∀ t, refresh = Except.ok t → 1 ≤ t.expiresIn) →
      now < cred'.expiresAt ∧ tok = cred'.accessToken) ∧
    (∀ cred refresh now cred',
      instagramEnsureValidToken cred refresh now = .ok cred' →
      (∀ t, refresh = Except.ok t → 1 ≤ t.expires_in) →
      now < cred'.expiresAt) ∧
    (∀ cred refresh now t, cred.isConnected = true →
      cred.expiresAt = now + 1000 →
      refresh = Except.ok t →
      instagramEnsureValidToken cred refresh now =
        .ok { cred with accessToken := t.access_token,
                        expiresAt := now + t.expires_in * 1000 }) := by
  refine ⟨?_, ?_, ?_⟩
  · intro cred refresh now cred' tok h hpos
    unfold snapchatEnsureValidToken at h
    split at h
    · exact absurd h (by simp)
    · split at h
      · cases refresh with
        | ok t =>
          simp only at h
          obtain hp := Except.ok.inj h
          obtain ⟨hc, ht⟩ := Prod.mk.injEq _ _ _ _ ▸ hp
          have h1 : 1 ≤ t.expiresIn := hpos t rfl
          constructor
          · rw [← hc]
            simp only
            have : 0 < t.expiresIn * 1000 := by positivity
            omega
          · rw [← hc, ← ht]
        | error m => exact absurd h (by simp)
      · obtain hp := Except.ok.inj h
        obtain ⟨hc, ht⟩ := Prod.mk.injEq _ _ _ _ ▸ hp
        rename_i hconn hnow
        constructor
        · rw [← hc]; omega
        · rw [← hc, ← ht]
  · intro cred refresh now cred' h hpos
    unfold instagramEnsureValidToken at h
    split at h
    · exact absurd h (by simp)
    · split at h
      · cases refresh with
        | ok t =>
          simp only at h
          obtain hc := Except.ok.inj h
          have h1 : 1 ≤ t.expires_in := hpos t rfl
          rw [← hc]
          simp only
          have : 0 < t.expires_in * 1000 := by positivity
          omega
        | error m => exact absurd h (by simp)
      · obtain hc := Except.ok.inj h
        rename_i hconn hnear
        rw [← hc]
        have : igLookaheadMs = 604800000 := rfl
        omega
  · intro cred refresh now t hconn hexp hr
    subst hr
    unfold instagramEnsureValidToken
    have h1 : cred.expiresAt < now + igLookaheadMs := by
      rw [hexp]
      have : igLookaheadMs = 604800000 := rfl
      omega
    simp [hconn, h1]

/-- Witness for C4: a Snapchat refresh at `now = 6000` on a credential
expired at 5000 yields expiry 66000 in the future, and the Instagram
variant refreshes a credential expiring one second ahead. -/
theorem c4_witness :
    (6000 : Nat) < (66000 : Nat) ∧
    instagramEnsureValidToken ⟨true, "a", "r", 7000⟩ (.ok ⟨"a2", 100⟩) 6000 =
      .ok ⟨true, "a2", "r", 106000⟩ := by
  constructor
  · exact (c4_ensure_valid_token.1 ⟨true, "a", "r", 5000⟩ (.ok ⟨"a2", "r2", 60⟩) 6000
      ⟨true, "a2", "r2", 66000⟩ "a2" rfl (fun t ht => by cases ht; decide)).1
  · exact c4_ensure_valid_token.2.2 ⟨true, "a", "r", 7000⟩ (.ok ⟨"a2", 100⟩) 6000
      ⟨"a2", 100⟩ rfl rfl rfl

/-- C5: the Instagram video polling loop performs at most 20 status checks,
waits a fixed 6000 ms before each check (total wait = 6000 × checks), and
always terminates (the loop is a total function); after it stops, status
`ERROR` yields `Video processing failed`, any other non-`FINISHED` status
(including `IN_PROGRESS` after the attempt budget) yields
`Video processing timeout`, and only `FINISHED` proceeds to the publish
step. -/
theorem c5_instagram_polling_bounded (check : Nat → String)
    (containerId : String) (pubOut : Except String (Option String)) :
    (pollContainerStatus check).2.1 ≤ 20 ∧
    (pollContainerStatus check).2.2 = 6000 * (pollContainerStatus check).2.1 ∧
    ((pollContainerStatus check).1 = "ERROR" →
      igUploadAndPublish "VIDEO" ⟨.ok containerId, check, pubOut⟩ =
        .error "Video processing failed") ∧
    (((pollContainerStatus check).1 == "ERROR") = false →
      ((pollContainerStatus check).1 == "FINISHED") = false →
      igUploadAndPublish "VIDEO" ⟨.ok containerId, check, pubOut⟩ =
        .error "Video processing timeout") ∧
    ((pollContainerStatus check).1 = "FINISHED" →
      igUploadAndPublish "VIDEO" ⟨.ok containerId, check, pubOut⟩ =
        (match pubOut with
          | .ok pid => .ok ⟨pid, containerId⟩
          | .error m => .error m)) := by
  refine ⟨pollGo_attempts_le check 20 "IN_PROGRESS" 0 0 (by omega),
    pollGo_waited check 20 "IN_PROGRESS" 0 0 rfl, ?_, ?_, ?_⟩
  · intro h
    simp [igUploadAndPublish, h]
  · intro h1 h2
    have h1' : (pollContainerStatus check).1 ≠ "ERROR" := by simpa using h1
    have h2' : (pollContainerStatus check).1 ≠ "FINISHED" := by simpa using h2
    simp [igUploadAndPublish, h1', h2']
  · intro h
    cases pubOut <;> simp [igUploadAndPublish, h]

/-- Witness for C5: a poll sequence `IN_PROGRESS, IN_PROGRESS, FINISHED`
stops within the budget and proceeds to the publish step. -/
theorem c5_witness :
    (pollContainerStatus finishAfterTwo).2.1 ≤ 20 ∧
    igUploadAndPublish "VIDEO" ⟨.ok "c1", finishAfterTwo, .ok (some "17900")⟩ =
      .ok ⟨some "17900", "c1"⟩ := by
  refine ⟨(c5_instagram_polling_bounded finishAfterTwo "c1" (.ok (some "17900"))).1, ?_⟩
  exact (c5_instagram_polling_bounded finishAfterTwo "c1" (.ok (some "17900"))).2.2.2.2
    (by decide)

/-- C7 (amended): over any set of due posts the sweep processes every post
(no failure aborts the run — one step result per post), `total` equals the
number of due posts, `published + failed = total`; a due post whose owning
user reference is null is counted in `failed` but contributes no entry to
the errors list (it is skipped silently); and every entry of the errors
list carries the post id of a post that was counted in `failed` via a
caught exception. -/
theorem c7_sweep_summary (posts : List (SchedPost × SchedPlatEnv)) (now : Nat) :
    (autoPublishScheduledPosts posts now).1.total = posts.length ∧
    (autoPublishScheduledPosts posts now).1.published +
      (autoPublishScheduledPosts posts now).1.failed = posts.length ∧
    ((autoPublishScheduledPosts posts now).2).length = posts.length ∧
    (∀ pe, pe ∈ posts → pe.1.user = none →
      (processScheduledPost pe.1 pe.2 now).publishedFlag = false ∧
      (processScheduledPost pe.1 pe.2 now).errorEntry = none) ∧
    (∀ e, e ∈ (autoPublishScheduledPosts posts now).1.errors →
      ∃ pe, pe ∈ posts ∧ e.postId = pe.1.id ∧
        (processScheduledPost pe.1 pe.2 now).publishedFlag = false) := by
  refine ⟨rfl, ?_, by simp [autoPublishScheduledPosts], ?_, ?_⟩
  · have h := length_filter_split
      (posts.map (fun pe => processScheduledPost pe.1 pe.2 now))
      (fun s => s.publishedFlag)
    simpa [autoPublishScheduledPosts] using h
  · intro pe hmem hu
    constructor <;> simp [processScheduledPost, hu]
  · intro e he
    simp only [autoPublishScheduledPosts, List.mem_filterMap, List.mem_map] at he
    obtain ⟨s, ⟨pe, hpe, hs⟩, hentry⟩ := he
    subst hs
    obtain ⟨hid, hflag⟩ := processScheduledPost_errorEntry pe.1 pe.2 now e hentry
    exact ⟨pe, hpe, hid, hflag⟩

/-- Counterexample to C7 as stated: three due posts where post 2's owning
user is null and the others succeed yield
`{total := 3, published := 2, failed := 1, errors := []}` — the errors list
is empty and in particular contains no entry with post 2's id, contrary to
the claimed `errors = [{postId: post2.id, ...}]`. -/
theorem c7_counterexample :
    (autoPublishScheduledPosts sweepPosts 1000).1 =
      { total := 3, published := 2, failed := 1, errors := [] } ∧
    ((autoPublishScheduledPosts sweepPosts 1000).1.errors).isEmpty = true := by
  decide

/-- Witness for C7 at the three-post scenario. -/
theorem c7_witness :
    (autoPublishScheduledPosts sweepPosts 1000).1.total = sweepPosts.length ∧
    (processScheduledPost sweepPost2 schedEnvOk 1000).publishedFlag = false ∧
    (processScheduledPost sweepPost2 schedEnvOk 1000).errorEntry = none := by
  have h := c7_sweep_summary sweepPosts 1000
  refine ⟨h.1, ?_, ?_⟩
  · exact (h.2.2.2.1 (sweepPost2, schedEnvOk) (by simp [sweepPosts]) rfl).1
  · exact (h.2.2.2.1 (sweepPost2, schedEnvOk) (by simp [sweepPosts]) rfl).2

set_option maxHeartbeats 1600000 in
/-- C8: an Instagram attempt whose workflow resolves without throwing but
carries no (truthy) post id is recorded as a failure: the `results.instagram`
slot stays null, the post's `instagramPostId` is unchanged, and the error
list carries the `No post ID returned from Instagram` entry. -/
theorem c8_missing_insta_id_is_failure (post : PostDoc) (user : UserDoc)
    (env : PublishEnv) (now : Nat) (r : InstaResult)
    (hpre : checkPreconditions post user = none)
    (hI : publishToInstagram (effectivePlatform post.platform) = true)
    (hio : env.instaOutcome = Except.ok r)
    (hid : jsTruthy r.postId = false) :
    (publishPost post user env now).resultsInstagram = none ∧
    (publishPost post user env now).post.instagramPostId = post.instagramPostId ∧
    (⟨"instagram", "No post ID returned from Instagram"⟩ : PlatformError) ∈
      (publishPost post user env now).errors := by
  have hrw : publishPost post user env now =
      runPublish (publishToSnapchat (effectivePlatform post.platform))
        (publishToInstagram (effectivePlatform post.platform))
        (publishToYouTube (effectivePlatform post.platform)) env now user post := by
    simp [publishPost, hpre]
  rw [hrw, hI]
  rcases env with ⟨so, io, yo⟩
  simp only at hio
  subst hio
  cases hS : publishToSnapchat (effectivePlatform post.platform) <;>
    cases hY : publishToYouTube (effectivePlatform post.platform) <;>
      cases so <;> cases yo <;>
        simp_all [runPublish, snapStep, instaStep, ytStep, finalizePublish, mkEarlyFail,
          Bind.bind, Except.bind]

/-- Witness for C8: a snapchat_instagram publish where Instagram resolves
with no post id. -/
theorem c8_witness :
    (publishPost siPost baseUser envInstaNoId 1000).resultsInstagram = none ∧
    (publishPost siPost baseUser envInstaNoId 1000).post.instagramPostId = none ∧
    (⟨"instagram", "No post ID returned from Instagram"⟩ : PlatformError) ∈
      (publishPost siPost baseUser envInstaNoId 1000).errors := by
  have h := c8_missing_insta_id_is_failure siPost baseUser envInstaNoId 1000
    ⟨none, "c1"⟩ (by decide) (by decide) rfl rfl
  exact ⟨h.1, h.2.1, h.2.2⟩

set_option maxHeartbeats 1600000 in
/-- C10: in both publish paths the Snapchat post id is extracted by trying
`response.data.id` then `response.id` (JavaScript truthiness: missing and
empty both skipped), and when neither is truthy the attempt is still
recorded as a success with the literal id `published`: the precedence facts,
the direct-path recording, and the scheduled-path recording. -/
theorem c10_snap_id_extraction :
    (∀ r s, r.dataId = some s → (s == "") = false → snapPostIdOf r = s) ∧
    (∀ r s, jsTruthy r.dataId = false → r.id = some s → (s == "") = false →
      snapPostIdOf r = s) ∧
    (∀ r, jsTruthy r.dataId = false → jsTruthy r.id = false →
      snapPostIdOf r = "published") ∧
    (∀ post user env now r,
      checkPreconditions post user = none →
      publishToSnapchat (effectivePlatform post.platform) = true →
      env.snapOutcome = Except.ok r →
      (publishPost post user env now).post.snapchatPostId = some (snapPostIdOf r) ∧
      (publishPost post user env now).resultsSnapchat = some ⟨true, snapPostIdOf r⟩) ∧
    (∀ user post env r st,
      schedPublishToSnapchat (effectivePlatform post.platform) = true →
      env.snapOutcome = Except.ok r →
      schedInner user post env = Except.ok st →
      st.post.snapchatPostId = some (snapPostIdOf r) ∧
      st.resSnap = some ⟨true, some (snapPostIdOf r), none⟩) := by
  refine ⟨?_, ?_, ?_, ?_, ?_⟩
  · intro r s h hne
    have : s ≠ "" := by simpa using hne
    simp [snapPostIdOf, jsStrOr, h, this]
  · intro r s hd h hne
    have hs : s ≠ "" := by simpa using hne
    rcases hdd : r.dataId with _ | d
    · simp [snapPostIdOf, jsStrOr, hdd, h, hs]
    · have : d = "" := by simpa [jsTruthy, hdd] using hd
      simp [snapPostIdOf, jsStrOr, hdd, this, h, hs]
  · intro r hd hi
    rcases hdd : r.dataId with _ | d <;> rcases hii : r.id with _ | i
    · simp [snapPostIdOf, jsStrOr, hdd, hii]
    · have : i = "" := by simpa [jsTruthy, hii] using hi
      simp [snapPostIdOf, jsStrOr, hdd, hii, this]
    · have : d = "" := by simpa [jsTruthy, hdd] using hd
      simp [snapPostIdOf, jsStrOr, hdd, hii, this]
    · have h1 : d = "" := by simpa [jsTruthy, hdd] using hd
      have h2 : i = "" := by simpa [jsTruthy, hii] using hi
      simp [snapPostIdOf, jsStrOr, hdd, hii, h1, h2]
  · intro post user env now r hpre hS hso
    have hrw : publishPost post user env now =
        runPublish (publishToSnapchat (effectivePlatform post.platform))
          (publishToInstagram (effectivePlatform post.platform))
          (publishToYouTube (effectivePlatform post.platform)) env now user post := by
      simp [publishPost, hpre]
    rw [hrw, hS]
    rcases env with ⟨so, io, yo⟩
    simp only at hso
    subst hso
    cases hI : publishToInstagram (effectivePlatform post.platform) <;>
      cases hY : publishToYouTube (effectivePlatform post.platform) <;>
        cases io <;> cases yo <;>
          (try simp_all [runPublish, snapStep, instaStep, ytStep, finalizePublish,
            mkEarlyFail, Bind.bind, Except.bind])
    all_goals
      (rename_i r2 z
       cases hj : jsTruthy r2.postId <;>
         simp_all [runPublish, snapStep, instaStep, ytStep, finalizePublish,
           mkEarlyFail, Bind.bind, Except.bind])
  · intro user post env r st hS hso hok
    rcases env with ⟨so, io⟩
    simp only at hso
    subst hso
    cases hchk : schedThrowChecks user post with
    | some m => simp [schedInner, hchk] at hok
    | none =>
      cases hI : schedPublishToInstagram (effectivePlatform post.platform) <;>
        rcases io with m | r2 <;>
          (try cases hj : jsTruthy r2.postId) <;>
            simp_all [schedInner, hchk] <;>
              (try (subst hok ; simp))

/-- Witness for C10: a Snapchat response carrying no id in either slot is
recorded as the success id `published` in both paths. -/
theorem c10_witness :
    snapPostIdOf ⟨none, none⟩ = "published" ∧
    (publishPost basePost baseUser envAllOk 1000).post.snapchatPostId = some "published" ∧
    (publishPost basePost baseUser envAllOk 1000).resultsSnapchat = some ⟨true, "published"⟩ ∧
    ({ post := { basePost with snapchatPostId := some "s1" },
       resSnap := some ⟨true, some "s1", none⟩, resInsta := none,
       attempted := ["snapchat"] } : SchedInnerSt).resSnap = some ⟨true, some "s1", none⟩ := by
  refine ⟨c10_snap_id_extraction.2.2.1 ⟨none, none⟩ rfl rfl, ?_, ?_, ?_⟩
  · exact (c10_snap_id_extraction.2.2.2.1 basePost baseUser envAllOk 1000 ⟨none, none⟩
      (by decide) (by decide) rfl).1
  · exact (c10_snap_id_extraction.2.2.2.1 basePost baseUser envAllOk 1000 ⟨none, none⟩
      (by decide) (by decide) rfl).2
  · exact (c10_snap_id_extraction.2.2.2.2 baseUser basePost schedEnvOk ⟨some "s1", none⟩
      { post := { basePost with snapchatPostId := some "s1" },
        resSnap := some ⟨true, some "s1", none⟩, resInsta := none,
        attempted := ["snapchat"] } (by decide) rfl rfl).2
